import Mathlib

/-!
Verification of the Branch-GPT backend relay (`backend/app.py`).

The development shallowly embeds the three endpoint handlers (`branch`,
`branch_summary`, `chat`) and the `stream_completion` relay, together with
the pieces of the Python standard library they rely on (string slicing,
`str.strip`, `json.loads`), and proves the testable properties of the spec
about them.
-/

namespace BranchGPT

/-- JSON values, as produced by the Python json decoder.  Numeric literals are
kept as their source text: the backend never inspects a numeric value, only
its truthiness, which is recoverable from the literal. -/
inductive Json where
  | null
  | bool (b : Bool)
  | num (lit : String)
  | str (s : String)
  | arr (elems : List Json)
  | obj (fields : List (String × Json))

/-- Characters stripped by the Python strip method (the ASCII whitespace
class; the backend never sees the exotic Unicode space characters). -/
def isPySpace (c : Char) : Bool :=
  c = ' ' || c = '\t' || c = '\n' || c = '\r' || c = '\x0b' || c = '\x0c'

/-- `l.dropWhile` from both ends: the list-level core of `str.strip()`. -/
def stripList (l : List Char) : List Char :=
  ((l.dropWhile isPySpace).reverse.dropWhile isPySpace).reverse

/-- Python `s.strip()`. -/
def pyStrip (s : String) : String :=
  String.mk (stripList s.data)

/-- Python `s[:n]` (slicing counts code points, as `List Char` does). -/
def pySlice (s : String) (n : Nat) : String :=
  String.mk (s.data.take n)

/-- Python `s[n:]`. -/
def pyDrop (s : String) (n : Nat) : String :=
  String.mk (s.data.drop n)

/-- Python `s.startswith(p)`. -/
def pyStartsWith (s p : String) : Bool :=
  List.isPrefixOf p.data s.data

/-- Lookup in a parsed JSON object.  the Python json decoder keeps the last
occurrence of a duplicated key, so lookup scans the reversed field list. -/
def objGet (fields : List (String × Json)) (k : String) : Option Json :=
  (fields.reverse.find? (fun kv => kv.1 = k)).map (·.2)

/-- Whether a JSON numeric literal denotes zero (falsy in Python): no
nonzero digit occurs in its mantissa (the part before any exponent). -/
def numLitIsZero (lit : String) : Bool :=
  (lit.data.takeWhile (fun c => c ≠ 'e' && c ≠ 'E')).all
    (fun c => !(c.isDigit && c ≠ '0'))

/-- Python truthiness of a decoded JSON value. -/
def jsonTruthy : Json → Bool
  | .null => false
  | .bool b => b
  | .num lit => !(numLitIsZero lit)
  | .str s => s ≠ ""
  | .arr es => !es.isEmpty
  | .obj fs => !fs.isEmpty

/-! ### A `json.loads` model

A fuel-indexed recursive-descent parser for the JSON grammar, faithful to
`json.loads` on the inputs the backend can meet: objects, arrays, strings
with the standard escapes, numbers, and the three literals.  `none` is the
embedding of `json.loads` raising. -/

/-- Skip JSON inter-token whitespace. -/
def skipWs : List Char → List Char
  | c :: cs => if c = ' ' || c = '\t' || c = '\n' || c = '\r' then skipWs cs else c :: cs
  | [] => []

/-- Decode the four hex digits of a `\uXXXX` escape. -/
def hexVal (c : Char) : Option Nat :=
  if '0' ≤ c ∧ c ≤ '9' then some (c.toNat - '0'.toNat)
  else if 'a' ≤ c ∧ c ≤ 'f' then some (c.toNat - 'a'.toNat + 10)
  else if 'A' ≤ c ∧ c ≤ 'F' then some (c.toNat - 'A'.toNat + 10)
  else none

/-- Parse the body of a JSON string after its opening quote; returns the
decoded text and the remaining input past the closing quote. -/
def parseStringBody : List Char → Option (List Char × List Char)
  | [] => none
  | '"' :: rest => some ([], rest)
  | '\\' :: e :: rest =>
    if e = 'u' then
      match rest with
      | a :: b :: c :: d :: rest2 =>
        match hexVal a, hexVal b, hexVal c, hexVal d with
        | some x, some y, some z, some w =>
          (parseStringBody rest2).map
            (fun p => (Char.ofNat (((x * 16 + y) * 16 + z) * 16 + w) :: p.1, p.2))
        | _, _, _, _ => none
      | _ => none
    else
      (if e = '"' then some '"'
       else if e = '\\' then some '\\'
       else if e = '/' then some '/'
       else if e = 'b' then some '\x08'
       else if e = 'f' then some '\x0c'
       else if e = 'n' then some '\n'
       else if e = 'r' then some '\r'
       else if e = 't' then some '\t'
       else none).bind
        (fun ch => (parseStringBody rest).map (fun p => (ch :: p.1, p.2)))
  | c :: rest =>
    (parseStringBody rest).map (fun p => (c :: p.1, p.2))

/-- Parse a JSON numeric literal, returning its source text and the rest. -/
def parseNumLit (cs : List Char) : Option (List Char × List Char) :=
  let sign : List Char × List Char :=
    match cs with
    | '-' :: rest => (['-'], rest)
    | _ => ([], cs)
  let intPart := sign.2.takeWhile Char.isDigit
  let afterInt := sign.2.dropWhile Char.isDigit
  if intPart = [] then none
  else
    let fracP : Option (List Char × List Char) :=
      match afterInt with
      | '.' :: rest =>
        let ds := rest.takeWhile Char.isDigit
        if ds = [] then none else some ('.' :: ds, rest.dropWhile Char.isDigit)
      | _ => some ([], afterInt)
    fracP.bind (fun fp =>
      let expP : Option (List Char × List Char) :=
        match fp.2 with
        | e :: rest =>
          if e = 'e' || e = 'E' then
            let signedRest : List Char × List Char :=
              match rest with
              | s :: r2 => if s = '+' || s = '-' then ([s], r2) else ([], rest)
              | [] => ([], rest)
            let ds := signedRest.2.takeWhile Char.isDigit
            if ds = [] then none
            else some (e :: (signedRest.1 ++ ds), signedRest.2.dropWhile Char.isDigit)
          else some ([], fp.2)
        | [] => some ([], fp.2)
      expP.map (fun ep => (sign.1 ++ intPart ++ fp.1 ++ ep.1, ep.2)))

mutual

/-- Parse one JSON value; fuel bounds nesting depth. -/
def parseVal : Nat → List Char → Option (Json × List Char)
  | 0, _ => none
  | fuel + 1, cs =>
    match skipWs cs with
    | [] => none
    | c :: rest =>
      if c = '"' then
        (parseStringBody rest).map (fun p => (.str (String.mk p.1), p.2))
      else if c = '{' then
        match skipWs rest with
        | '}' :: rest2 => some (.obj [], rest2)
        | other => (parseObjItems fuel other).map (fun p => (.obj p.1, p.2))
      else if c = '[' then
        match skipWs rest with
        | ']' :: rest2 => some (.arr [], rest2)
        | other => (parseArrItems fuel other).map (fun p => (.arr p.1, p.2))
      else if c = 't' then
        match rest with
        | 'r' :: 'u' :: 'e' :: rest2 => some (.bool true, rest2)
        | _ => none
      else if c = 'f' then
        match rest with
        | 'a' :: 'l' :: 's' :: 'e' :: rest2 => some (.bool false, rest2)
        | _ => none
      else if c = 'n' then
        match rest with
        | 'u' :: 'l' :: 'l' :: rest2 => some (.null, rest2)
        | _ => none
      else
        (parseNumLit (c :: rest)).map (fun p => (.num (String.mk p.1), p.2))

/-- Parse the comma-separated items of a JSON array (first item pending). -/
def parseArrItems : Nat → List Char → Option (List Json × List Char)
  | 0, _ => none
  | fuel + 1, cs =>
    (parseVal fuel cs).bind (fun p =>
      match skipWs p.2 with
      | ',' :: rest => (parseArrItems fuel rest).map (fun q => (p.1 :: q.1, q.2))
      | ']' :: rest => some ([p.1], rest)
      | _ => none)

/-- Parse the comma-separated members of a JSON object (first pending). -/
def parseObjItems : Nat → List Char → Option (List (String × Json) × List Char)
  | 0, _ => none
  | fuel + 1, cs =>
    match skipWs cs with
    | '"' :: rest =>
      (parseStringBody rest).bind (fun kp =>
        match skipWs kp.2 with
        | ':' :: rest2 =>
          (parseVal fuel rest2).bind (fun vp =>
            match skipWs vp.2 with
            | ',' :: rest3 =>
              (parseObjItems fuel rest3).map
                (fun q => ((String.mk kp.1, vp.1) :: q.1, q.2))
            | '}' :: rest3 => some ([(String.mk kp.1, vp.1)], rest3)
            | _ => none)
        | _ => none)
    | _ => none

end

/-- `json.loads`: parse a complete document, allowing trailing whitespace;
`none` embeds the `JSONDecodeError` exception. -/
def json_loads (s : String) : Option Json :=
  (parseVal (s.data.length + 1) s.data).bind (fun p =>
    match skipWs p.2 with
    | [] => some p.1
    | _ => none)

/-! ### The completion relay (`stream_completion`) -/

/-- The upstream interaction, as observed by `stream_completion`: either
`requests.post` raised (`netError`), or it produced a response with a
status code, a body text (`r.text` / `r.json()` both read it) and the
iterated lines of the streamed body (`r.iter_lines(decode_unicode=True)`,
newline markers already removed). -/
inductive Upstream where
  | netError (msg : String)
  | response (status : Nat) (text : String) (lines : List String)

/-- The caller-facing outcome: a structured JSON error with a status code,
or a streamed plain-text body given by its chunk sequence. -/
inductive RelayResult where
  | jsonError (status : Nat) (body : Json)
  | streamed (chunks : List String)

/-- The error envelope of a relay outcome, if any. -/
def errEnvelope : RelayResult → Option (Nat × Json)
  | .jsonError s b => some (s, b)
  | .streamed _ => none

/-- The streamed chunk sequence of a relay outcome, if any. -/
def streamBody : RelayResult → Option (List String)
  | .jsonError _ _ => none
  | .streamed cs => some cs

/-- `event["choices"][0]["delta"].get("content", "")` under the Python
exception semantics: `none` embeds any raised exception (caught by the
`except` and skipped), including a truthy non-string content whose
`.encode` raises; `some ""` is the `.get` default for a missing content. -/
def getContentDelta : Json → Option String
  | .obj fields =>
    match objGet fields "choices" with
    | some (.arr (first :: _)) =>
      match first with
      | .obj f1 =>
        match objGet f1 "delta" with
        | some (.obj f2) =>
          match objGet f2 "content" with
          | some (.str s) => some s
          | none => some ""
          | some v => if jsonTruthy v then none else some ""
        | _ => none
      | _ => none
    | _ => none
  | _ => none

/-- The generator body of `stream_completion.generate`: walk the upstream
lines in order, skip empty lines and lines without the `"data: "` marker,
stop at the `[DONE]` sentinel, emit each parsed non-empty content delta,
and silently skip malformed frames. -/
def generate : List String → List String
  | [] => []
  | line :: rest =>
    if line = "" then generate rest
    else if pyStartsWith line "data: " then
      let dataStr := pyStrip (pyDrop line 6)
      if dataStr = "[DONE]" then []
      else
        match json_loads dataStr with
        | some ev =>
          match getContentDelta ev with
          | some delta => if delta = "" then generate rest else delta :: generate rest
          | none => generate rest
        | none => generate rest
    else generate rest

/-- The non-200 error body: `r.json()` flattened from the nested
`{"error": {"message": ...}}` shape when it has it, the parsed body
otherwise, and `{"error": r.text or "Unknown error from Groq"}` when
`r.json()` raises. -/
def flattenUpstreamBody (text : String) : Json :=
  match json_loads text with
  | some body =>
    match body with
    | .obj fields =>
      match objGet fields "error" with
      | some (.obj efields) =>
        match objGet efields "message" with
        | some m => .obj [("error", m)]
        | none => body
      | _ => body
    | _ => body
  | none => .obj [("error", .str (if text = "" then "Unknown error from Groq" else text))]

/-- Whether the status check lets the relay stream: a 200 response. -/
def upstreamOk : Upstream → Bool
  | .netError _ => false
  | .response status _ _ => status = 200

/-- `stream_completion`, from the outcome of the upstream call on: network
error → 502 gateway error; non-200 → relayed structured error with the
upstream status; 200 → stream of decoded chunks. -/
def stream_completion (u : Upstream) : RelayResult :=
  match u with
  | .netError e =>
    .jsonError 502 (.obj [("error", .str ("Network error contacting Groq: " ++ e))])
  | .response status text lines =>
    if status ≠ 200 then .jsonError status (flattenUpstreamBody text)
    else .streamed (generate lines)

/-! ### The endpoint handlers -/

/-- One upstream chat message, as the handlers build them.  History entries
are copied field-by-field, so both fields are arbitrary JSON values. -/
structure Message where
  role : Json
  content : Json

/-- A well-typed incoming history entry: the fields of a dict item, each
`none` when the key is absent. -/
structure HistDict where
  role : Option Json
  content : Option Json

/-- An incoming history entry: `isinstance(m, dict)` distinguishes
dict items from everything else. -/
inductive HistItem where
  | notDict
  | dict (d : HistDict)

/-- The common history step: each dict entry carrying both keys is
appended in order with its fields verbatim; everything else is dropped. -/
def historyMessages (history : List HistItem) : List Message :=
  history.filterMap (fun
    | .notDict => none
    | .dict d =>
      match d.role, d.content with
      | some r, some c => some ⟨r, c⟩
      | _, _ => none)

/-- One popup turn: the `role` and `content` fields of a dict, each `none`
when the key is absent. -/
structure Turn where
  role : Option Json
  content : Option Json

/-- Python `v or ""` applied to an optional dict field. -/
def pyOrEmptyStr : Option Json → Json
  | none => .str ""
  | some v => if jsonTruthy v then v else .str ""

/-- One iteration of the `branch` turn loop: keep a turn whose role is the
string `"user"` or `"assistant"` and whose (defaulted) content is a
string. -/
def branchTurnMessage1 (t : Turn) : Option Message :=
  match t.role with
  | some (.str r) =>
    if r = "user" || r = "assistant" then
      match pyOrEmptyStr t.content with
      | .str s => some ⟨.str r, .str s⟩
      | _ => none
    else none
  | _ => none

/-- The `branch` turn loop. -/
def branchTurnMessages (ts : List Turn) : List Message :=
  ts.filterMap branchTurnMessage1

/-- One iteration of the `branch_summary` turn loop: same filtering as
`branch`, but the kept turn is re-framed as `"User: ..."` or
`"Assistant: ..."` and always emitted with role `"user"`. -/
def summaryTurnMessage1 (t : Turn) : Option Message :=
  match t.role with
  | some (.str r) =>
    if r = "user" || r = "assistant" then
      match pyOrEmptyStr t.content with
      | .str s =>
        some ⟨.str "user", .str ((if r = "user" then "User:" else "Assistant:") ++ " " ++ s)⟩
      | _ => none
    else none
  | _ => none

/-- The `branch_summary` turn loop. -/
def summaryTurnMessages (ts : List Turn) : List Message :=
  ts.filterMap summaryTurnMessage1

/-- The anchoring context message built from the (already sliced)
selection. -/
def ctxMessage (selection : String) : Message :=
  ⟨.str "user", .str ("Selected Context:\n" ++ selection)⟩

/-- Body of the blank-selection validation error. -/
def selectionRequiredBody : Json := .obj [("error", .str "selection required")]

/-- Body of the neither-question-nor-turns validation error. -/
def provideEitherBody : Json :=
  .obj [("error", .str "Provide either popup_turns or question")]

/-- The JSON body of a `/api/branch` request, after `data.get(...)`
defaulting: absent string fields are `none`, absent lists are `[]`. -/
structure BranchReq where
  selection : Option String
  history : List HistItem
  question : Option String
  popup_turns : List Turn

/-- The `branch` handler past the OPTIONS/API-key plumbing: validate,
assemble the message list, or fail with a 400 JSON error. -/
def branch (req : BranchReq) : Except (Nat × Json) (List Message) :=
  let selection := pySlice (req.selection.getD "") 3000
  let question := pyStrip (req.question.getD "")
  if pyStrip selection = "" then
    .error (400, selectionRequiredBody)
  else
    let messages := historyMessages req.history ++ [ctxMessage selection]
    if !req.popup_turns.isEmpty then
      .ok (messages ++ branchTurnMessages req.popup_turns)
    else if question ≠ "" then
      .ok (messages ++ [⟨.str "user", .str question⟩])
    else
      .error (400, provideEitherBody)

/-- The JSON body of a `/api/branch/summary` request, after defaulting. -/
structure SummaryReq where
  selection : Option String
  popup_turns : List Turn
  history : List HistItem

/-- The transcript header inserted before a non-empty popup transcript. -/
def transcriptHeaderMessage : Message :=
  ⟨.str "user", .str "Below is the branch conversation transcript:"⟩

/-- The fixed final summarization instruction. -/
def summaryInstructionMessage : Message :=
  ⟨.str "user", .str ("Write a concise summary of the branch conversation for a student.\n" ++
    "- 5–8 bullet points\n" ++
    "- 1-line key takeaway at the end\n" ++
    "- Do NOT repeat the full selected text; focus on the conversation\u0027s conclusions and clarifications.")⟩

/-- The `branch_summary` handler past the OPTIONS/API-key plumbing. -/
def branch_summary (req : SummaryReq) : Except (Nat × Json) (List Message) :=
  let selection := pySlice (req.selection.getD "") 3000
  if pyStrip selection = "" then
    .error (400, selectionRequiredBody)
  else
    let messages := historyMessages req.history ++ [ctxMessage selection]
    let messages :=
      if !req.popup_turns.isEmpty then
        messages ++ [transcriptHeaderMessage] ++ summaryTurnMessages req.popup_turns
      else messages
    .ok (messages ++ [summaryInstructionMessage])

/-- A whole endpoint: a validation error is returned directly, with no
upstream call; otherwise the assembled messages are relayed, and the
outcome is that of `stream_completion` on the behaviour of the upstream. -/
def endpointResult (handlerResult : Except (Nat × Json) (List Message))
    (u : Upstream) : RelayResult :=
  match handlerResult with
  | .error e => .jsonError e.1 e.2
  | .ok _ => stream_completion u

/-! ### Spec-side characterization of the stream decoder

These definitions follow the wording of the spec (one delta per valid frame,
`[DONE]` cuts the sequence, everything else is ignored); the decoder
claims compare `generate` against them. -/

/-- Modelled from the spec: whether a line is the clean end-of-stream
sentinel (a `"data: "` frame whose payload is the literal `[DONE]`). -/
def specIsDoneLine (line : String) : Bool :=
  line ≠ "" && pyStartsWith line "data: " && pyStrip (pyDrop line 6) = "[DONE]"

/-- Modelled from the spec: the emitted delta of a single line, if any —
`some d` exactly when the line is a well-formed `"data: "` frame whose
event carries a non-empty content delta. -/
def specLineDelta (line : String) : Option String :=
  if line = "" then none
  else if pyStartsWith line "data: " then
    match json_loads (pyStrip (pyDrop line 6)) with
    | some ev =>
      match getContentDelta ev with
      | some d => if d = "" then none else some d
      | none => none
    | none => none
  else none

/-- Modelled from the spec: the full emitted output — the deltas of the
valid frames before the first sentinel, in order, nothing else. -/
def specEmitted (lines : List String) : List String :=
  (lines.takeWhile (fun l => !specIsDoneLine l)).filterMap specLineDelta

/-! ### Helper lemmas -/

theorem specEmitted_nil : specEmitted [] = [] := rfl

theorem specEmitted_cons (l : String) (rest : List String) :
    specEmitted (l :: rest) =
      if specIsDoneLine l then [] else (specLineDelta l).toList ++ specEmitted rest := by
  unfold specEmitted
  rw [List.takeWhile_cons]
  by_cases h : specIsDoneLine l
  · simp [h]
  · simp only [h, Bool.not_false, if_neg h, if_pos]
    cases hd : specLineDelta l <;> simp [List.filterMap_cons, hd]

theorem stripList_eq_nil_iff (l : List Char) :
    stripList l = [] ↔ ∀ c ∈ l, isPySpace c := by
  unfold stripList
  rw [List.reverse_eq_nil_iff, List.dropWhile_eq_nil_iff]
  constructor
  · intro h c hc
    rcases List.mem_append.mp ((List.takeWhile_append_dropWhile (p := isPySpace) (l := l)) ▸ hc) with h1 | h2
    · exact List.mem_takeWhile_imp h1
    · exact h (c) (by simpa using h2)
  · intro h c hc
    exact h c (List.dropWhile_subset _ (by simpa using hc))

theorem pyStrip_eq_empty_iff (s : String) :
    pyStrip s = "" ↔ ∀ c ∈ s.data, isPySpace c := by
  unfold pyStrip
  rw [show ("" : String) = String.mk [] from rfl]
  constructor
  · intro h
    have : stripList s.data = [] := by
      have := congrArg String.data h
      simpa using this
    exact (stripList_eq_nil_iff _).mp this
  · intro h
    rw [(stripList_eq_nil_iff _).mpr h]

theorem pyStrip_pySlice_eq_empty (s : String) (n : Nat) (h : pyStrip s = "") :
    pyStrip (pySlice s n) = "" := by
  rw [pyStrip_eq_empty_iff] at h ⊢
  intro c hc
  exact h c (List.take_subset n s.data (by simpa [pySlice] using hc))

theorem branchTurnMessage1_shape (t : Turn) (m : Message)
    (h : branchTurnMessage1 t = some m) :
    ∃ r s, t.role = some (.str r) ∧ (r = "user" ∨ r = "assistant") ∧
      pyOrEmptyStr t.content = .str s ∧ m = ⟨.str r, .str s⟩ := by
  unfold branchTurnMessage1 at h
  split at h
  · rename_i r hr
    split at h
    · rename_i hcond
      split at h
      · rename_i s hs
        injection h with h
        refine ⟨r, s, hr, ?_, hs, h.symm⟩
        simpa using hcond
      · exact absurd h (by simp)
    · exact absurd h (by simp)
  · exact absurd h (by simp)

theorem branchTurnMessages_role (ts : List Turn) (m : Message)
    (h : m ∈ branchTurnMessages ts) :
    m.role = .str "user" ∨ m.role = .str "assistant" := by
  unfold branchTurnMessages at h
  rw [List.mem_filterMap] at h
  obtain ⟨t, _, ht⟩ := h
  obtain ⟨r, s, _, hru, _, hm⟩ := branchTurnMessage1_shape t m ht
  subst hm
  rcases hru with h1 | h1 <;> subst h1
  · left; rfl
  · right; rfl

theorem summaryTurnMessage1_shape (t : Turn) (m : Message)
    (h : summaryTurnMessage1 t = some m) :
    m.role = .str "user" ∧
    ∃ r s, t.role = some (.str r) ∧ (r = "user" ∨ r = "assistant") ∧
      pyOrEmptyStr t.content = .str s ∧
      m.content = .str ((if r = "user" then "User:" else "Assistant:") ++ " " ++ s) := by
  unfold summaryTurnMessage1 at h
  split at h
  · rename_i r hr
    split at h
    · rename_i hcond
      split at h
      · rename_i s hs
        injection h with h
        subst h
        exact ⟨rfl, r, s, hr, by simpa using hcond, hs, rfl⟩
      · exact absurd h (by simp)
    · exact absurd h (by simp)
  · exact absurd h (by simp)

theorem summaryTurnMessages_shape (ts : List Turn) (m : Message)
    (h : m ∈ summaryTurnMessages ts) :
    m.role = .str "user" ∧
    ∃ t ∈ ts, ∃ r s, t.role = some (.str r) ∧ (r = "user" ∨ r = "assistant") ∧
      pyOrEmptyStr t.content = .str s ∧
      m.content = .str ((if r = "user" then "User:" else "Assistant:") ++ " " ++ s) := by
  unfold summaryTurnMessages at h
  rw [List.mem_filterMap] at h
  obtain ⟨t, htm, ht⟩ := h
  obtain ⟨hrole, r, s, h1, h2, h3, h4⟩ := summaryTurnMessage1_shape t m ht
  exact ⟨hrole, t, htm, r, s, h1, h2, h3, h4⟩

/-! ### Claim theorems -/

/-- C1: for every upstream outcome, the relay returns exactly one of a
structured JSON error (with no streamed chunks) or a streamed body (with
no error envelope), and which of the two is returned is exactly the
upstream status check: a stream is produced precisely when the upstream
response is a 200, before any chunk is decoded. -/
theorem relay_exclusive_choice (u : Upstream) :
    (streamBody (stream_completion u)).isSome = upstreamOk u ∧
    (errEnvelope (stream_completion u)).isSome = !upstreamOk u := by
  cases u with
  | netError e => exact ⟨rfl, rfl⟩
  | response status text lines =>
    by_cases h : status = 200
    · subst h
      simp [stream_completion, upstreamOk, streamBody, errEnvelope]
    · simp [stream_completion, upstreamOk, streamBody, errEnvelope, h]

/-- C4: on any non-200 upstream response the relay returns a structured
error with the upstream status and no streamed chunks; the body is
flattened to `{"error": msg}` when the upstream body parses to the nested
`{"error": {"message": msg}}` shape, and falls back to
`{"error": raw text or default}` when the body is unparseable. -/
theorem relay_non_200_error (status : Nat) (text : String) (lines : List String)
    (h : status ≠ 200) :
    stream_completion (.response status text lines)
        = .jsonError status (flattenUpstreamBody text) ∧
    streamBody (stream_completion (.response status text lines)) = none ∧
    (∀ fields efields msg, json_loads text = some (.obj fields) →
        objGet fields "error" = some (.obj efields) →
        objGet efields "message" = some msg →
        flattenUpstreamBody text = .obj [("error", msg)]) ∧
    (json_loads text = none →
        flattenUpstreamBody text =
          .obj [("error", .str (if text = "" then "Unknown error from Groq" else text))]) := by
  refine ⟨by simp [stream_completion, h], by simp [stream_completion, h, streamBody], ?_, ?_⟩
  · intro fields efields msg h1 h2 h3
    simp only [flattenUpstreamBody, h1, h2, h3]
  · intro h1
    simp only [flattenUpstreamBody, h1]

/-- C4 witness: a 429 with body `{"error":{"message":"rate limited"}}`
yields status 429, body `{"error":"rate limited"}` and no stream. -/
theorem relay_non_200_error_w :
    stream_completion (.response 429 "\x7b\"error\":\x7b\"message\":\"rate limited\"\x7d\x7d" [])
        = .jsonError 429 (.obj [("error", .str "rate limited")]) ∧
    streamBody (stream_completion
        (.response 429 "\x7b\"error\":\x7b\"message\":\"rate limited\"\x7d\x7d" [])) = none := by
  have h := relay_non_200_error 429 "\x7b\"error\":\x7b\"message\":\"rate limited\"\x7d\x7d" [] (by decide)
  exact ⟨h.1.trans (by rfl), h.2.1⟩

/-- C5: the decoder walks lines in order: a `[DONE]` payload terminates the
output cleanly, lines without the `"data: "` marker contribute nothing,
and on the two-delta frame sequence the emitted chunks are exactly
`"Hi"`, `" there"`, i.e. the byte sequence `Hi there`. -/
theorem decoder_emits_deltas :
    generate ["data: \x7b\"choices\":[\x7b\"delta\":\x7b\"content\":\"Hi\"\x7d\x7d]\x7d",
              "data: \x7b\"choices\":[\x7b\"delta\":\x7b\"content\":\" there\"\x7d\x7d]\x7d",
              "data: [DONE]"] = ["Hi", " there"] ∧
    String.join (generate ["data: \x7b\"choices\":[\x7b\"delta\":\x7b\"content\":\"Hi\"\x7d\x7d]\x7d",
              "data: \x7b\"choices\":[\x7b\"delta\":\x7b\"content\":\" there\"\x7d\x7d]\x7d",
              "data: [DONE]"]) = "Hi there" ∧
    (∀ rest : List String, generate ("data: [DONE]" :: rest) = []) ∧
    (∀ (line : String) (rest : List String), pyStartsWith line "data: " = false →
        generate (line :: rest) = generate rest) := by
  refine ⟨by rfl, by rfl, fun rest => by rfl, ?_⟩
  intro line rest h
  by_cases h1 : line = ""
  · simp [generate, h1]
  · simp [generate, h1, h]

/-- C5 witness: the sentinel cuts the stream even with lines after it, and
a line without the marker is skipped. -/
theorem decoder_emits_deltas_w :
    generate ["data: [DONE]", "ignored"] = [] ∧
    generate ["not a frame"] = generate [] :=
  ⟨decoder_emits_deltas.2.2.1 ["ignored"],
   decoder_emits_deltas.2.2.2 "not a frame" [] (by decide)⟩

/-- C6: the decoder output is exactly the concatenation of the deltas of
the valid frames before the first sentinel — malformed or unparseable
`"data: "` frames interleaved between valid ones are skipped silently,
neither interrupting nor truncating the output; concretely, a garbage
frame between the two deltas leaves the output `["Hi", " there"]`. -/
theorem decoder_skips_malformed :
    (∀ lines : List String, generate lines = specEmitted lines) ∧
    generate ["data: \x7b\"choices\":[\x7b\"delta\":\x7b\"content\":\"Hi\"\x7d\x7d]\x7d",
              "data: \x7boops",
              "data: \x7b\"choices\":[\x7b\"delta\":\x7b\"content\":\" there\"\x7d\x7d]\x7d",
              "data: [DONE]"] = ["Hi", " there"] := by
  refine ⟨?_, by rfl⟩
  intro lines
  induction lines with
  | nil => rfl
  | cons line rest ih =>
    rw [specEmitted_cons]
    by_cases h1 : line = ""
    · subst h1
      simp [generate, specIsDoneLine, specLineDelta, ih]
    · by_cases h2 : pyStartsWith line "data: " = true
      · by_cases h3 : pyStrip (pyDrop line 6) = "[DONE]"
        · have hd : specIsDoneLine line = true := by simp [specIsDoneLine, h1, h2, h3]
          simp [generate, h1, h2, h3, hd]
        · have hd : specIsDoneLine line = false := by simp [specIsDoneLine, h1, h2, h3]
          cases hj : json_loads (pyStrip (pyDrop line 6)) with
          | none => simp [generate, h1, h2, h3, specLineDelta, hd, hj, ih]
          | some ev =>
            cases hcd : getContentDelta ev with
            | none => simp [generate, h1, h2, h3, specLineDelta, hd, hj, hcd, ih]
            | some d =>
              by_cases h4 : d = ""
              · simp [generate, h1, h2, h3, specLineDelta, hd, hj, hcd, h4, ih]
              · simp [generate, h1, h2, h3, specLineDelta, hd, hj, hcd, h4, ih]
      · have h2f : pyStartsWith line "data: " = false := by simpa using h2
        have hd : specIsDoneLine line = false := by simp [specIsDoneLine, h2f]
        simp [generate, h1, h2f, specLineDelta, hd, ih]

/-- C2 counterexample: a branch request with non-blank selection and BOTH
`question` and `popup_turns` provided does not fail — it is processed in
multi-turn mode. -/
theorem branch_both_provided_processed :
    branch { selection := some "abc", history := [],
             question := some "q",
             popup_turns := [⟨some (.str "user"), some (.str "hi")⟩] } =
      .ok [ctxMessage "abc", ⟨.str "user", .str "hi"⟩] := by rfl

/-- C2 amended: with a non-blank selection, at least one of `question` and
`popup_turns` is required — with neither the request fails with the 400
validation error; when both are provided `popup_turns` takes precedence
and the request is processed exactly as if `question` were absent. -/
theorem branch_requires_question_or_turns (req : BranchReq)
    (hsel : pyStrip (pySlice (req.selection.getD "") 3000) ≠ "") :
    (req.popup_turns = [] → pyStrip (req.question.getD "") = "" →
        branch req = .error (400, provideEitherBody)) ∧
    (req.popup_turns ≠ [] → branch req = branch { req with question := none }) := by
  constructor
  · intro hpt hq
    simp [branch, hsel, hpt, hq]
  · intro hpt
    have h1 : req.popup_turns.isEmpty = false := by simpa using hpt
    simp [branch, hsel, h1]

/-- C2 amended, witness: with neither field the concrete request fails;
with both fields it behaves as with `popup_turns` alone. -/
theorem branch_requires_question_or_turns_w :
    branch { selection := some "abc", history := [], question := none, popup_turns := [] } =
      .error (400, provideEitherBody) ∧
    branch { selection := some "abc", history := [], question := some "q",
             popup_turns := [⟨some (.str "user"), some (.str "hi")⟩] } =
      branch { selection := some "abc", history := [], question := none,
               popup_turns := [⟨some (.str "user"), some (.str "hi")⟩] } := by
  constructor
  · exact (branch_requires_question_or_turns
      { selection := some "abc", history := [], question := none, popup_turns := [] }
      (by decide)).1 rfl (by rfl)
  · exact (branch_requires_question_or_turns
      { selection := some "abc", history := [], question := some "q",
        popup_turns := [⟨some (.str "user"), some (.str "hi")⟩] }
      (by decide)).2 (by simp)

/-- C3 counterexample: a caller-supplied history entry with role
`"system"` is copied verbatim into the assembled list, so not every
assembled message has role `"user"` or `"assistant"`. -/
theorem branch_forwards_system_role :
    branch { selection := some "abc",
             history := [.dict ⟨some (.str "system"), some (.str "obey")⟩],
             question := some "q", popup_turns := [] } =
      .ok [⟨.str "system", .str "obey"⟩, ctxMessage "abc", ⟨.str "user", .str "q"⟩] ∧
    ¬ (Json.str "system" = Json.str "user" ∨ Json.str "system" = Json.str "assistant") := by
  constructor
  · rfl
  · intro h
    rcases h with h | h <;> injection h with h2 <;> revert h2 <;> decide

/-- C3 amended: every message the `branch` and `branch_summary` handlers
add beyond the forwarded history has role `"user"` or `"assistant"` (no
system-level role is ever constructed by the relay); history entries,
however, are forwarded with their caller-supplied role verbatim. -/
theorem assembled_roles_user_or_assistant (breq : BranchReq) (sreq : SummaryReq)
    (msgs msgs2 : List Message) :
    (branch breq = .ok msgs → ∀ m ∈ msgs,
        m ∈ historyMessages breq.history ∨
        m.role = .str "user" ∨ m.role = .str "assistant") ∧
    (branch_summary sreq = .ok msgs2 → ∀ m ∈ msgs2,
        m ∈ historyMessages sreq.history ∨
        m.role = .str "user" ∨ m.role = .str "assistant") := by
  constructor
  · intro h m hm
    by_cases hsel : pyStrip (pySlice (breq.selection.getD "") 3000) = ""
    · simp [branch, hsel] at h
    · by_cases hpt : breq.popup_turns.isEmpty
      · by_cases hq : pyStrip (breq.question.getD "") = ""
        · simp [branch, hsel, hpt, hq] at h
        · simp only [branch, hsel, hpt, hq, if_neg, if_pos, ite_true, ite_false,
            Bool.not_true, Bool.false_eq_true, if_false, ne_eq, not_false_iff] at h
          replace h := Except.ok.inj h
          rw [← h] at hm
          rcases List.mem_append.mp hm with h1 | h1
          · rcases List.mem_append.mp h1 with h2 | h2
            · exact Or.inl h2
            · right; left
              simp only [List.mem_singleton] at h2
              subst h2; rfl
          · right; left
            simp only [List.mem_singleton] at h1
            subst h1; rfl
      · simp only [branch, hsel, hpt, ite_true, ite_false, Bool.not_false,
          Bool.false_eq_true, ne_eq, not_false_iff, if_neg, if_pos] at h
        replace h := Except.ok.inj h
        rw [← h] at hm
        rcases List.mem_append.mp hm with h1 | h1
        · rcases List.mem_append.mp h1 with h2 | h2
          · exact Or.inl h2
          · right; left
            simp only [List.mem_singleton] at h2
            subst h2; rfl
        · exact Or.inr (branchTurnMessages_role _ _ h1)
  · intro h m hm
    by_cases hsel : pyStrip (pySlice (sreq.selection.getD "") 3000) = ""
    · simp [branch_summary, hsel] at h
    · by_cases hpt : sreq.popup_turns.isEmpty
      · simp only [branch_summary, hsel, hpt, ite_true, ite_false, Bool.not_true,
          Bool.false_eq_true, ne_eq, not_false_iff, if_neg, if_pos, if_false] at h
        replace h := Except.ok.inj h
        rw [← h] at hm
        rcases List.mem_append.mp hm with h1 | h1
        · rcases List.mem_append.mp h1 with h2 | h2
          · exact Or.inl h2
          · right; left
            simp only [List.mem_singleton] at h2
            subst h2; rfl
        · right; left
          simp only [List.mem_singleton] at h1
          subst h1; rfl
      · simp only [branch_summary, hsel, hpt, ite_true, ite_false, Bool.not_false,
          Bool.false_eq_true, ne_eq, not_false_iff, if_neg, if_pos] at h
        replace h := Except.ok.inj h
        rw [← h] at hm
        rcases List.mem_append.mp hm with h1 | h1
        · rcases List.mem_append.mp h1 with h2 | h2
          · rcases List.mem_append.mp h2 with h3 | h3
            · rcases List.mem_append.mp h3 with h4 | h4
              · exact Or.inl h4
              · right; left
                simp only [List.mem_singleton] at h4
                subst h4; rfl
            · right; left
              simp only [List.mem_singleton] at h3
              subst h3; rfl
          · exact Or.inr (Or.inl (summaryTurnMessages_shape _ _ h2).1)
        · right; left
          simp only [List.mem_singleton] at h1
          subst h1; rfl

/-- C3 amended, witness: the context message of a concrete branch request
is covered by the user/assistant disjunct. -/
theorem assembled_roles_user_or_assistant_w :
    ctxMessage "abc" ∈ historyMessages ([] : List HistItem) ∨
    (ctxMessage "abc").role = .str "user" ∨ (ctxMessage "abc").role = .str "assistant" :=
  (assembled_roles_user_or_assistant
    { selection := some "abc", history := [], question := some "q", popup_turns := [] }
    { selection := some "abc", popup_turns := [], history := [] }
    [ctxMessage "abc", ⟨.str "user", .str "q"⟩] []).1 (by rfl) (ctxMessage "abc")
    (List.mem_cons_self _ _)

/-- C7: a blank (empty or whitespace-only) selection makes `branch` and
`branch_summary` return the 400 `selection required` error regardless of
every other field, and the whole endpoint answers with that error
independently of any upstream behaviour — no upstream call is consulted. -/
theorem blank_selection_rejected (breq : BranchReq) (sreq : SummaryReq)
    (hb : pyStrip (breq.selection.getD "") = "")
    (hs : pyStrip (sreq.selection.getD "") = "") :
    branch breq = .error (400, selectionRequiredBody) ∧
    branch_summary sreq = .error (400, selectionRequiredBody) ∧
    (∀ u : Upstream,
        endpointResult (branch breq) u = .jsonError 400 selectionRequiredBody ∧
        endpointResult (branch_summary sreq) u = .jsonError 400 selectionRequiredBody) := by
  have hb2 := pyStrip_pySlice_eq_empty _ 3000 hb
  have hs2 := pyStrip_pySlice_eq_empty _ 3000 hs
  refine ⟨by simp [branch, hb2], by simp [branch_summary, hs2], ?_⟩
  intro u
  constructor <;> simp [endpointResult, branch, branch_summary, hb2, hs2]

/-- C7 witness: a whitespace-only branch selection is rejected even with a
question present, and a summary request with no selection never reaches
the (healthy) upstream. -/
theorem blank_selection_rejected_w :
    branch { selection := some "   ", history := [], question := some "q",
             popup_turns := [] } = .error (400, selectionRequiredBody) ∧
    endpointResult (branch_summary { selection := none, popup_turns := [], history := [] })
        (.response 200 "" []) = .jsonError 400 selectionRequiredBody := by
  have h := blank_selection_rejected
      { selection := some "   ", history := [], question := some "q", popup_turns := [] }
      { selection := none, popup_turns := [], history := [] } (by decide) (by rfl)
  exact ⟨h.1, (h.2.2 (.response 200 "" [])).2⟩

/-- C8: whenever `branch` or `branch_summary` proceeds, the anchoring
message right after the forwarded history is
`"Selected Context:\n"` followed by exactly the first 3000 characters of
the supplied selection; a selection of at most 3000 characters is embedded
unchanged. -/
theorem selection_truncated_to_3000 (breq : BranchReq) (sreq : SummaryReq)
    (msgs msgs2 : List Message) :
    (branch breq = .ok msgs → ∃ rest, msgs = historyMessages breq.history ++
        ctxMessage (pySlice (breq.selection.getD "") 3000) :: rest) ∧
    (branch_summary sreq = .ok msgs2 → ∃ rest, msgs2 = historyMessages sreq.history ++
        ctxMessage (pySlice (sreq.selection.getD "") 3000) :: rest) ∧
    (∀ s : String, s.data.length ≤ 3000 → pySlice s 3000 = s) := by
  refine ⟨?_, ?_, ?_⟩
  · intro h
    by_cases hsel : pyStrip (pySlice (breq.selection.getD "") 3000) = ""
    · simp [branch, hsel] at h
    · by_cases hpt : breq.popup_turns.isEmpty
      · by_cases hq : pyStrip (breq.question.getD "") = ""
        · simp [branch, hsel, hpt, hq] at h
        · simp only [branch, hsel, hpt, hq, ite_true, ite_false, Bool.not_true,
            Bool.false_eq_true, if_false, ne_eq, not_false_iff, if_neg, if_pos] at h
          replace h := Except.ok.inj h
          exact ⟨[⟨.str "user", .str (pyStrip (breq.question.getD ""))⟩],
            by rw [← h]; simp⟩
      · simp only [branch, hsel, hpt, ite_true, ite_false, Bool.not_false,
          Bool.false_eq_true, ne_eq, not_false_iff, if_neg, if_pos] at h
        replace h := Except.ok.inj h
        exact ⟨branchTurnMessages breq.popup_turns, by rw [← h]; simp⟩
  · intro h
    by_cases hsel : pyStrip (pySlice (sreq.selection.getD "") 3000) = ""
    · simp [branch_summary, hsel] at h
    · by_cases hpt : sreq.popup_turns.isEmpty
      · simp only [branch_summary, hsel, hpt, ite_true, ite_false, Bool.not_true,
          Bool.false_eq_true, if_false, ne_eq, not_false_iff, if_neg, if_pos] at h
        replace h := Except.ok.inj h
        exact ⟨[summaryInstructionMessage], by rw [← h]; simp⟩
      · simp only [branch_summary, hsel, hpt, ite_true, ite_false, Bool.not_false,
          Bool.false_eq_true, ne_eq, not_false_iff, if_neg, if_pos] at h
        replace h := Except.ok.inj h
        exact ⟨transcriptHeaderMessage ::
            (summaryTurnMessages sreq.popup_turns ++ [summaryInstructionMessage]),
          by rw [← h]; simp⟩
  · intro s hlen
    cases s with
    | mk l => simp [pySlice, List.take_of_length_le hlen]

/-- C8 witness: the concrete request embeds its short selection
unchanged right after the (empty) history. -/
theorem selection_truncated_to_3000_w :
    (∃ rest, [ctxMessage "abc", ⟨Json.str "user", Json.str "q"⟩] =
        historyMessages ([] : List HistItem) ++
          ctxMessage (pySlice "abc" 3000) :: rest) ∧
    pySlice "abc" 3000 = "abc" := by
  have h := selection_truncated_to_3000
      { selection := some "abc", history := [], question := some "q", popup_turns := [] }
      { selection := some "abc", popup_turns := [], history := [] }
      [ctxMessage "abc", ⟨.str "user", .str "q"⟩] []
  exact ⟨h.1 (by rfl), h.2.2 "abc" (by decide)⟩

/-- C9: for every summary request with non-blank (truncated) selection the
handler proceeds and assembles exactly: the well-formed history entries in
order, the selection-context message, then — only when `popup_turns` is
non-empty — the transcript header followed by the re-framed turns, and the
fixed instruction message last; every re-framed turn has role `"user"` and
content prefixed with the literal `"User:"` or `"Assistant:"`. -/
theorem summary_message_layout (sreq : SummaryReq)
    (hsel : pyStrip (pySlice (sreq.selection.getD "") 3000) ≠ "") :
    branch_summary sreq = .ok (
      historyMessages sreq.history
      ++ [ctxMessage (pySlice (sreq.selection.getD "") 3000)]
      ++ (if sreq.popup_turns.isEmpty then []
          else transcriptHeaderMessage :: summaryTurnMessages sreq.popup_turns)
      ++ [summaryInstructionMessage]) ∧
    (∀ m ∈ summaryTurnMessages sreq.popup_turns, m.role = .str "user" ∧
        ∃ t ∈ sreq.popup_turns, ∃ r s,
          t.role = some (.str r) ∧ (r = "user" ∨ r = "assistant") ∧
          pyOrEmptyStr t.content = .str s ∧
          m.content = .str ((if r = "user" then "User:" else "Assistant:") ++ " " ++ s)) := by
  constructor
  · by_cases hpt : sreq.popup_turns.isEmpty <;>
      simp [branch_summary, hsel, hpt, List.append_assoc]
  · intro m hm
    exact summaryTurnMessages_shape _ _ hm

/-- C9 witness: a concrete summary request with one assistant turn, and
one with no turns at all, both proceed with the stated layout. -/
theorem summary_message_layout_w :
    branch_summary { selection := some "abc",
                     popup_turns := [⟨some (.str "assistant"), some (.str "hi")⟩],
                     history := [] } =
      .ok (historyMessages ([] : List HistItem)
        ++ [ctxMessage (pySlice "abc" 3000)]
        ++ (if ([⟨some (.str "assistant"), some (.str "hi")⟩] : List Turn).isEmpty then []
            else transcriptHeaderMessage ::
              summaryTurnMessages [⟨some (.str "assistant"), some (.str "hi")⟩])
        ++ [summaryInstructionMessage]) ∧
    branch_summary { selection := some "abc", popup_turns := [], history := [] } =
      .ok (historyMessages ([] : List HistItem)
        ++ [ctxMessage (pySlice "abc" 3000)]
        ++ (if ([] : List Turn).isEmpty then []
            else transcriptHeaderMessage :: summaryTurnMessages [])
        ++ [summaryInstructionMessage]) :=
  ⟨(summary_message_layout _ (by decide)).1, (summary_message_layout _ (by decide)).1⟩

/-- C10: the 3000-character truncation happens before the blankness check,
so a selection whose first 3000 characters are all whitespace is rejected
with the blank-selection error even when non-whitespace characters follow
position 3000. -/
theorem truncation_before_blank_check (breq : BranchReq) (sreq : SummaryReq)
    (hb : pyStrip (pySlice (breq.selection.getD "") 3000) = "")
    (hs : pyStrip (pySlice (sreq.selection.getD "") 3000) = "") :
    branch breq = .error (400, selectionRequiredBody) ∧
    branch_summary sreq = .error (400, selectionRequiredBody) :=
  ⟨by simp [branch, hb], by simp [branch_summary, hs]⟩

set_option maxRecDepth 40000 in
/-- C10 witness: 3000 spaces followed by an `x` — the selection is not
blank as a whole, yet both handlers reject it. -/
theorem truncation_before_blank_check_w :
    pyStrip (String.mk (List.replicate 3000 ' ' ++ ['x'])) ≠ "" ∧
    branch { selection := some (String.mk (List.replicate 3000 ' ' ++ ['x'])),
             history := [], question := some "q", popup_turns := [] } =
      .error (400, selectionRequiredBody) ∧
    branch_summary { selection := some (String.mk (List.replicate 3000 ' ' ++ ['x'])),
                     popup_turns := [⟨some (.str "user"), some (.str "hi")⟩],
                     history := [] } =
      .error (400, selectionRequiredBody) := by
  have h := truncation_before_blank_check
      { selection := some (String.mk (List.replicate 3000 ' ' ++ ['x'])),
        history := [], question := some "q", popup_turns := [] }
      { selection := some (String.mk (List.replicate 3000 ' ' ++ ['x'])),
        popup_turns := [⟨some (.str "user"), some (.str "hi")⟩], history := [] }
      (by decide) (by decide)
  refine ⟨?_, h.1, h.2⟩
  decide

end BranchGPT
